import Mathlib

/-!
Shallow embedding of `src/index.ts` from the web-gpu-first-app repository:
a WebGPU Game of Life with double-buffered cell state.  GPU resources are
modelled as symbolic identifiers; the host-side control flow (`init`,
`updateGrid`, `resize`) is translated into pure Lean functions over those
identifiers and over an abstract pseudo-random source `rand : Nat → ℚ`
standing for the successive return values of `Math.random()`.
-/

set_option maxRecDepth 4000

namespace WebGpuLife

/-- `const GRID_SIZE = 32` (src/index.ts line 28). -/
def GRID_SIZE : Nat := 32

/-- `const UPDATE_INTERVAL = 500` (src/index.ts line 175). -/
def UPDATE_INTERVAL : Nat := 500

/-- The GPU buffers created by `init`; `cellState 0` is "Cell State A"
(`cellStateStorage[0]`), `cellState 1` is "Cell State B"
(`cellStateStorage[1]`). -/
inductive Buffer where
  | uniformBuffer : Buffer
  | cellState : Nat → Buffer
  | vertexBuffer : Buffer
deriving DecidableEq, Repr

/-- A bind group as created by `device.createBindGroup`: the resource bound
at each of the three binding slots of the shared layout (binding 0 uniform,
binding 1 read-only storage, binding 2 writable storage). -/
structure BindGroup where
  binding0 : Buffer
  binding1 : Buffer
  binding2 : Buffer
deriving DecidableEq, Repr

/-- The `bindGroups` array (src/index.ts lines 108-145): entry 0 is
"Cell renderer bind group A" (uniform, `cellStateStorage[0]` at binding 1,
`cellStateStorage[1]` at binding 2), entry 1 is "Cell renderer bind group B"
with the two state buffers swapped. -/
def bindGroups : List BindGroup :=
  [ { binding0 := .uniformBuffer
      binding1 := .cellState 0
      binding2 := .cellState 1 },
    { binding0 := .uniformBuffer
      binding1 := .cellState 1
      binding2 := .cellState 0 } ]

/-- The expression `bindGroups[step % 2]` used by both passes of
`updateGrid`. -/
def selectedBindGroup (step : Nat) : BindGroup :=
  bindGroups.get ⟨step % 2, by
    rw [show bindGroups.length = 2 from rfl]; omega⟩

/-- The `vertices` array (src/index.ts lines 58-61): two clip-space
triangles forming a quad, written here as exact rationals (-0.8 = -4/5). -/
def vertices : List ℚ :=
  [ -4/5, -4/5, 4/5, -4/5, 4/5, 4/5,
    -4/5, -4/5, 4/5, 4/5, -4/5, 4/5 ]

/-- The observable parameters of one `updateGrid` tick: which bind group
each pass binds, the dispatch dimensions, the draw-call arguments and the
post-tick value of `step`. -/
structure TickResult where
  computeBindGroup : BindGroup
  workgroupCountX : ℤ
  workgroupCountY : ℤ
  stepAfter : Nat
  renderBindGroup : BindGroup
  drawVertexCount : Nat
  drawInstanceCount : Nat
deriving DecidableEq, Repr

/-- `updateGrid` (src/index.ts lines 181-212) run from generation counter
`step`, with `WORKGROUP_SIZE` the compile-time shader constant imported
from `ComputeShader`.  Mirrors the source order: the compute pass binds
`bindGroups[step % 2]` and dispatches
`Math.ceil(GRID_SIZE / WORKGROUP_SIZE)` workgroups in x and y, then
`step++`, then the render pass binds `bindGroups[step % 2]` for the new
`step` and draws `vertices.length / 2` vertices with
`GRID_SIZE * GRID_SIZE` instances. -/
def updateGrid (WORKGROUP_SIZE : ℚ) (step : Nat) : TickResult :=
  let computeGroup := selectedBindGroup step
  let workgroupCount : ℤ := ⌈(GRID_SIZE : ℚ) / WORKGROUP_SIZE⌉
  let step2 := step + 1
  let renderGroup := selectedBindGroup step2
  { computeBindGroup := computeGroup
    workgroupCountX := workgroupCount
    workgroupCountY := workgroupCount
    stepAfter := step2
    renderBindGroup := renderGroup
    drawVertexCount := vertices.length / 2
    drawInstanceCount := GRID_SIZE * GRID_SIZE }

/-- The seeding expression `Math.random() > 0.4 ? 1 : 0` (src/index.ts
line 53), with the draw `r` an exact rational and 0.4 = 2/5. -/
def seedCell (r : ℚ) : Nat := if r > 2/5 then 1 else 0

/-- A single store `arr[i] = v` into a typed array modelled as a total
function from indices. -/
def writeIndex (arr : Nat → Nat) (i v : Nat) : Nat → Nat :=
  fun j => if j = i then v else arr j

/-- The seeding loop
`for (let i = 0; i < cellStateArray.length; i += 3) cellStateArray[i] = Math.random() > 0.4 ? 1 : 0`
(src/index.ts lines 52-54).  `c` counts the `Math.random()` calls made so
far, so the body of iteration `i` consumes `rand c`. -/
def seedLoop (rand : Nat → ℚ) (len i c : Nat) (arr : Nat → Nat) : Nat → Nat :=
  if i < len then
    seedLoop rand len (i + 3) (c + 1) (writeIndex arr i (seedCell (rand c)))
  else arr
termination_by len - i
decreasing_by omega

/-- The contents of `cellStateArray` after the seeding loop: a
`new Uint32Array(GRID_SIZE * GRID_SIZE)` starts all-zero (src/index.ts
line 38) and is then seeded from index 0 with stride 3. -/
def cellStateArrayInit (rand : Nat → ℚ) : Nat → Nat :=
  seedLoop rand (GRID_SIZE * GRID_SIZE) 0 0 (fun _ => 0)

/-- `const uniformArray = new Float32Array([GRID_SIZE, GRID_SIZE])`
(src/index.ts line 30). -/
def uniformArray : List ℚ := [(GRID_SIZE : ℚ), (GRID_SIZE : ℚ)]

/-- The data handed to `device.queue.writeBuffer` for each buffer during
`init` (src/index.ts lines 36, 55, 56, 67): both cell-state writes reuse
the single `cellStateArray` that the seeding loop just filled. -/
structure InitWrites where
  uniformWrite : List ℚ
  cellStateWrite0 : Nat → Nat
  cellStateWrite1 : Nat → Nat
  vertexWrite : List ℚ

/-- The buffer writes performed by a successful `init`, as a function of
the pseudo-random source. -/
def initWrites (rand : Nat → ℚ) : InitWrites :=
  let cellStateArray := cellStateArrayInit rand
  { uniformWrite := uniformArray
    cellStateWrite0 := cellStateArray
    cellStateWrite1 := cellStateArray
    vertexWrite := vertices }

/-- The environment probed by `init`'s guard clauses: whether
`navigator.gpu` exists, whether `requestAdapter()` resolves to a non-null
adapter, and whether `canvas.getContext("webgpu")` returns a context. -/
structure Env where
  gpuSupported : Bool
  adapterAvailable : Bool
  contextAvailable : Bool
deriving DecidableEq, Repr

/-- The externally visible actions `init` can perform, in program order. -/
inductive Effect where
  | resizeCanvas : Effect
  | configureContext : Effect
  | createBuffer : String → Effect
  | writeBuffer : Buffer → Effect
  | createShaderModule : String → Effect
  | createBindGroupLayout : Effect
  | createBindGroup : String → Effect
  | createPipelineLayout : Effect
  | createRenderPipeline : Effect
  | createComputePipeline : Effect
  | startInterval : Nat → Effect
deriving DecidableEq, Repr

/-- `init` (src/index.ts lines 6-213) as an effect trace: it calls
`resize()`, then throws on each of the three guard failures in source
order (no GPU, no adapter, no context), and only on the success path goes
on to configure the context, create and fill the buffers, build shader
modules, bind groups and pipelines, and start the 500 ms interval timer.
Returns the trace of effects performed together with the thrown error
message, if any. -/
def initRun (env : Env) : List Effect × Option String :=
  let pre : List Effect := [.resizeCanvas]
  if !env.gpuSupported then
    (pre, some "WebGPU not supported on this browser")
  else if !env.adapterAvailable then
    (pre, some "No appropriate GPUAdapter found.")
  else if !env.contextAvailable then
    (pre, some "Could not get canvas context")
  else
    (pre ++
      [ .configureContext,
        .createBuffer "Grid Uniforms", .writeBuffer .uniformBuffer,
        .createBuffer "Cell State A", .createBuffer "Cell State B",
        .writeBuffer (.cellState 0), .writeBuffer (.cellState 1),
        .createBuffer "Cell verticies", .writeBuffer .vertexBuffer,
        .createShaderModule "Cell shader",
        .createShaderModule "Game of Life simulation shader",
        .createBindGroupLayout,
        .createBindGroup "Cell renderer bind group A",
        .createBindGroup "Cell renderer bind group B",
        .createPipelineLayout, .createRenderPipeline,
        .createComputePipeline,
        .startInterval UPDATE_INTERVAL ], none)

/-- True of the effects that either create a GPU buffer or start the
simulation-loop timer. -/
def isBufferOrTimerEffect : Effect → Bool
  | .createBuffer _ => true
  | .startInterval _ => true
  | _ => false

/-- The page state touched (or deliberately not touched) by `resize`: the
canvas drawing-buffer attributes, its CSS style properties, and the
simulation state living inside `init`'s closure. -/
structure World where
  canvasWidth : Nat
  canvasHeight : Nat
  styleWidth : ℚ
  styleHeight : ℚ
  styleMarginLeft : ℚ
  styleMarginRight : ℚ
  styleMarginTop : ℚ
  styleMarginBottom : ℚ
  step : Nat
  cellStateContents0 : Nat → Nat
  cellStateContents1 : Nat → Nat

/-- `resize` (src/index.ts lines 216-239): computes the screen size as
`max(document.documentElement.clientWidth, window.innerWidth || 0)` (and
likewise for height), a uniform scale against the 600x600 design size,
the floored enlarged size and centering margins, and assigns only the six
CSS style properties `width`, `height`, `marginLeft`, `marginRight`,
`marginTop`, `marginBottom` (the source writes them as "<n>px" strings;
the numeric pixel value is modelled).  Everything else is untouched. -/
def resize (docClientWidth docClientHeight innerWidth innerHeight : ℚ)
    (w : World) : World :=
  let screenWidth := max docClientWidth innerWidth
  let screenHeight := max docClientHeight innerHeight
  let canvasWidth : ℚ := 600
  let canvasHeight : ℚ := 600
  let scale := min (screenWidth / canvasWidth) (screenHeight / canvasHeight)
  let enlargedWidth : ℤ := ⌊scale * canvasWidth⌋
  let enlargedHeight : ℤ := ⌊scale * canvasHeight⌋
  let horizontalMargin : ℚ := (screenWidth - enlargedWidth) / 2
  let verticalMargin : ℚ := (screenHeight - enlargedHeight) / 2
  { w with
    styleWidth := enlargedWidth
    styleHeight := enlargedHeight
    styleMarginLeft := horizontalMargin
    styleMarginRight := horizontalMargin
    styleMarginTop := verticalMargin
    styleMarginBottom := verticalMargin }

/-- The alive-cell threshold 0.4 from `Math.random() > 0.4` (src/index.ts
line 53). -/
def seedThreshold : ℚ := 2/5

/-- The set of draws `r` of a uniform `Math.random()` in `[0,1)` for which
the seeded cell is set alive. -/
def aliveRegion : Set ℝ :=
  {r ∈ Set.Ico (0 : ℝ) 1 | (seedThreshold : ℝ) < r}

/-- The set of draws `r` in `[0,1)` for which the seeded cell stays dead. -/
def deadRegion : Set ℝ :=
  {r ∈ Set.Ico (0 : ℝ) 1 | ¬ (seedThreshold : ℝ) < r}

/-! ## Helper lemmas -/

theorem selectedBindGroup_even (k : Nat) (h : k % 2 = 0) :
    selectedBindGroup k =
      { binding0 := .uniformBuffer, binding1 := .cellState 0, binding2 := .cellState 1 } := by
  simp [selectedBindGroup, bindGroups, h]

theorem selectedBindGroup_odd (k : Nat) (h : k % 2 = 1) :
    selectedBindGroup k =
      { binding0 := .uniformBuffer, binding1 := .cellState 1, binding2 := .cellState 0 } := by
  simp [selectedBindGroup, bindGroups, h]

theorem seedLoop_apply_of_mod_ne (rand : Nat → ℚ) (len i c : Nat) (arr : Nat → Nat)
    (j : Nat) (h : j % 3 ≠ i % 3) : seedLoop rand len i c arr j = arr j := by
  rw [seedLoop]
  split
  · rw [seedLoop_apply_of_mod_ne rand len (i + 3) (c + 1) _ j (by omega)]
    have hji : j ≠ i := by omega
    simp [writeIndex, hji]
  · rfl
termination_by len - i
decreasing_by omega

theorem seedLoop_apply_of_lt (rand : Nat → ℚ) (len i c : Nat) (arr : Nat → Nat)
    (j : Nat) (h : j < i) : seedLoop rand len i c arr j = arr j := by
  rw [seedLoop]
  split
  · rw [seedLoop_apply_of_lt rand len (i + 3) (c + 1) _ j (by omega)]
    have hji : j ≠ i := by omega
    simp [writeIndex, hji]
  · rfl
termination_by len - i
decreasing_by omega

theorem seedLoop_apply_seeded (rand : Nat → ℚ) (len i c : Nat) (arr : Nat → Nat)
    (j : Nat) (hij : i ≤ j) (hmod : j % 3 = i % 3) (hlt : j < len) :
    seedLoop rand len i c arr j = seedCell (rand (c + (j - i) / 3)) := by
  rw [seedLoop]
  have hi : i < len := lt_of_le_of_lt hij hlt
  rw [if_pos hi]
  by_cases hji : j = i
  · subst hji
    rw [seedLoop_apply_of_lt rand len (j + 3) (c + 1) _ j (by omega)]
    simp [writeIndex]
  · have h3 : i + 3 ≤ j := by omega
    rw [seedLoop_apply_seeded rand len (i + 3) (c + 1) _ j h3 (by omega) hlt]
    have harith : c + 1 + (j - (i + 3)) / 3 = c + (j - i) / 3 := by omega
    rw [harith]
termination_by len - i
decreasing_by omega

theorem seedCell_le_one (r : ℚ) : seedCell r ≤ 1 := by
  unfold seedCell
  split <;> omega

theorem seedLoop_apply_le_one (rand : Nat → ℚ) (len i c : Nat) (arr : Nat → Nat)
    (hbound : ∀ j, arr j ≤ 1) (j : Nat) : seedLoop rand len i c arr j ≤ 1 := by
  rw [seedLoop]
  split
  · refine seedLoop_apply_le_one rand len (i + 3) (c + 1) _ ?_ j
    intro k
    by_cases hk : k = i
    · simpa [writeIndex, hk] using seedCell_le_one (rand c)
    · simpa [writeIndex, hk] using hbound k
  · exact hbound j
termination_by len - i
decreasing_by omega

theorem seedThreshold_real : (seedThreshold : ℝ) = 2 / 5 := by
  norm_num [seedThreshold]

theorem aliveRegion_eq : aliveRegion = Set.Ioo ((2 : ℝ) / 5) 1 := by
  ext r
  simp only [aliveRegion, Set.mem_setOf_eq, Set.mem_Ico, Set.mem_Ioo, seedThreshold_real]
  constructor
  · rintro ⟨⟨_, h1⟩, h2⟩
    exact ⟨h2, h1⟩
  · rintro ⟨h2, h1⟩
    exact ⟨⟨by linarith, h1⟩, h2⟩

theorem deadRegion_eq : deadRegion = Set.Icc (0 : ℝ) (2 / 5) := by
  ext r
  simp only [deadRegion, Set.mem_setOf_eq, Set.mem_Ico, Set.mem_Icc, seedThreshold_real,
    not_lt]
  constructor
  · rintro ⟨⟨h0, _⟩, h2⟩
    exact ⟨h0, h2⟩
  · rintro ⟨h0, h2⟩
    exact ⟨⟨h0, by linarith⟩, h2⟩

theorem volume_aliveRegion :
    MeasureTheory.volume aliveRegion = ENNReal.ofReal (3 / 5) := by
  rw [aliveRegion_eq, Real.volume_Ioo]
  norm_num

theorem volume_deadRegion :
    MeasureTheory.volume deadRegion = ENNReal.ofReal (2 / 5) := by
  rw [deadRegion_eq, Real.volume_Icc]
  norm_num

theorem seedCell_eq_one_iff (r : ℚ) : seedCell r = 1 ↔ seedThreshold < r := by
  by_cases h : r > 2 / 5 <;> simp [seedCell, seedThreshold, h]

/-! ## Claim theorems -/

/-- C1: for every tick started at generation counter `t`, the compute pass
binds `bindGroups[t % 2]`, which reads `cellStateStorage[t % 2]` at
binding 1 and writes `cellStateStorage[(t+1) % 2]` at binding 2; `step` is
then incremented to `t + 1` and the render pass binds
`bindGroups[(t+1) % 2]`, whose binding 1 is exactly the buffer the compute
pass just wrote. -/
theorem C1_ping_pong_invariant (WORKGROUP_SIZE : ℚ) (t : Nat) :
    (updateGrid WORKGROUP_SIZE t).computeBindGroup = selectedBindGroup t ∧
    (updateGrid WORKGROUP_SIZE t).computeBindGroup.binding1 = .cellState (t % 2) ∧
    (updateGrid WORKGROUP_SIZE t).computeBindGroup.binding2 = .cellState ((t + 1) % 2) ∧
    (updateGrid WORKGROUP_SIZE t).stepAfter = t + 1 ∧
    (updateGrid WORKGROUP_SIZE t).renderBindGroup = selectedBindGroup (t + 1) ∧
    (updateGrid WORKGROUP_SIZE t).renderBindGroup.binding1 =
      (updateGrid WORKGROUP_SIZE t).computeBindGroup.binding2 := by
  rcases Nat.mod_two_eq_zero_or_one t with h | h
  · have h1 : (t + 1) % 2 = 1 := by omega
    simp [updateGrid, selectedBindGroup_even t h, selectedBindGroup_odd (t + 1) h1, h, h1]
  · have h1 : (t + 1) % 2 = 0 := by omega
    simp [updateGrid, selectedBindGroup_odd t h, selectedBindGroup_even (t + 1) h1, h, h1]

/-- C2: exactly two bind groups are created, with bind group 0 binding the
uniform buffer at binding 0, `cellStateStorage[0]` at the read-only
binding 1 and `cellStateStorage[1]` at the writable binding 2, and bind
group 1 binding the same uniform buffer with the two state buffers
swapped; every tick merely selects one of these two fixed groups by the
parity of the generation counter (compute pass: `t % 2`, render pass:
`(t+1) % 2`), never altering them. -/
theorem C2_two_static_bind_groups :
    bindGroups.length = 2 ∧
    bindGroups =
      [ { binding0 := .uniformBuffer, binding1 := .cellState 0, binding2 := .cellState 1 },
        { binding0 := .uniformBuffer, binding1 := .cellState 1, binding2 := .cellState 0 } ] ∧
    ∀ (WORKGROUP_SIZE : ℚ) (t : Nat),
      (updateGrid WORKGROUP_SIZE t).computeBindGroup = selectedBindGroup t ∧
      (updateGrid WORKGROUP_SIZE t).renderBindGroup = selectedBindGroup (t + 1) ∧
      ((t % 2 = 0 ∧ selectedBindGroup t =
          { binding0 := .uniformBuffer, binding1 := .cellState 0, binding2 := .cellState 1 }) ∨
       (t % 2 = 1 ∧ selectedBindGroup t =
          { binding0 := .uniformBuffer, binding1 := .cellState 1, binding2 := .cellState 0 })) := by
  refine ⟨rfl, rfl, ?_⟩
  intro WORKGROUP_SIZE t
  refine ⟨rfl, rfl, ?_⟩
  rcases Nat.mod_two_eq_zero_or_one t with h | h
  · exact Or.inl ⟨h, selectedBindGroup_even t h⟩
  · exact Or.inr ⟨h, selectedBindGroup_odd t h⟩

/-- C3: for any outcome of the pseudo-random source, `init` writes the one
seeded `cellStateArray` to both `cellStateStorage[0]` and
`cellStateStorage[1]`, so the two initial buffer images are bitwise
identical. -/
theorem C3_both_buffers_seeded_identically (rand : Nat → ℚ) :
    (initWrites rand).cellStateWrite0 = (initWrites rand).cellStateWrite1 ∧
    (∀ i, (initWrites rand).cellStateWrite0 i = (initWrites rand).cellStateWrite1 i) ∧
    (initWrites rand).cellStateWrite0 = cellStateArrayInit rand :=
  ⟨rfl, fun _ => rfl, rfl⟩

/-- C4: the seeding loop strides by 3 from index 0, so every cell index
`i` with `i % 3 ≠ 0` keeps the `Uint32Array` default value 0, while every
index divisible by 3 and inside the array receives the 0-or-1 value drawn
by the `i / 3`-th call to the random source. -/
theorem C4_every_third_cell_randomized (rand : Nat → ℚ) (i : Nat) :
    (i % 3 ≠ 0 → cellStateArrayInit rand i = 0) ∧
    (i % 3 = 0 → i < GRID_SIZE * GRID_SIZE →
      cellStateArrayInit rand i = seedCell (rand (i / 3))) := by
  constructor
  · intro h
    exact seedLoop_apply_of_mod_ne rand (GRID_SIZE * GRID_SIZE) 0 0 _ i (by omega)
  · intro h1 h2
    have h := seedLoop_apply_seeded rand (GRID_SIZE * GRID_SIZE) 0 0 (fun _ => 0) i
      (Nat.zero_le i) (by omega) h2
    simpa [cellStateArrayInit] using h

/-- C4 witness: with a constant random source returning 1/2, index 1 (not
divisible by 3) is 0 and index 3 receives the drawn value. -/
theorem C4_every_third_cell_randomized_witness :
    cellStateArrayInit (fun _ => (1 : ℚ) / 2) 1 = 0 ∧
    cellStateArrayInit (fun _ => (1 : ℚ) / 2) 3 = seedCell ((1 : ℚ) / 2) :=
  ⟨(C4_every_third_cell_randomized (fun _ => (1 : ℚ) / 2) 1).1 (by decide),
   (C4_every_third_cell_randomized (fun _ => (1 : ℚ) / 2) 3).2 (by decide) (by decide)⟩

/-- C5: every tick dispatches a square compute grid: both the x and the y
workgroup count equal `Math.ceil(GRID_SIZE / WORKGROUP_SIZE)`. -/
theorem C5_square_dispatch (WORKGROUP_SIZE : ℚ) (t : Nat) :
    (updateGrid WORKGROUP_SIZE t).workgroupCountX = ⌈(GRID_SIZE : ℚ) / WORKGROUP_SIZE⌉ ∧
    (updateGrid WORKGROUP_SIZE t).workgroupCountY = ⌈(GRID_SIZE : ℚ) / WORKGROUP_SIZE⌉ ∧
    (updateGrid WORKGROUP_SIZE t).workgroupCountY =
      (updateGrid WORKGROUP_SIZE t).workgroupCountX :=
  ⟨rfl, rfl, rfl⟩

/-- C6: every render pass issues one instanced draw of
`vertices.length / 2 = 6` vertices per instance and
`GRID_SIZE * GRID_SIZE = 1024` instances, for 6144 vertices per frame. -/
theorem C6_draw_call_counts (WORKGROUP_SIZE : ℚ) (t : Nat) :
    (updateGrid WORKGROUP_SIZE t).drawVertexCount = vertices.length / 2 ∧
    vertices.length = 12 ∧
    (updateGrid WORKGROUP_SIZE t).drawVertexCount = 6 ∧
    (updateGrid WORKGROUP_SIZE t).drawInstanceCount = GRID_SIZE * GRID_SIZE ∧
    (updateGrid WORKGROUP_SIZE t).drawInstanceCount = 1024 ∧
    (updateGrid WORKGROUP_SIZE t).drawVertexCount *
      (updateGrid WORKGROUP_SIZE t).drawInstanceCount = 6144 :=
  ⟨rfl, rfl, rfl, rfl, rfl, rfl⟩

/-- C7: on each of the three startup failure branches (WebGPU unsupported,
no adapter, no canvas context) `init` throws, and the effect trace up to
the throw contains no `createBuffer` call and no `setInterval` start. -/
theorem C7_failures_abort_before_buffers (env : Env)
    (h : env.gpuSupported = false ∨ env.adapterAvailable = false ∨
      env.contextAvailable = false) :
    (initRun env).2.isSome = true ∧
    ∀ e ∈ (initRun env).1, isBufferOrTimerEffect e = false := by
  rcases env with ⟨g, a, c⟩
  rcases g <;> rcases a <;> rcases c <;>
    simp_all [initRun, isBufferOrTimerEffect]

/-- C7 witness: concretely, when WebGPU is unsupported the run throws and
performs neither buffer creation nor timer start. -/
theorem C7_failures_abort_before_buffers_witness :
    (initRun ⟨false, true, true⟩).2.isSome = true ∧
    ∀ e ∈ (initRun ⟨false, true, true⟩).1, isBufferOrTimerEffect e = false :=
  C7_failures_abort_before_buffers ⟨false, true, true⟩ (Or.inl rfl)

/-- C8 counterexample: the claim says a seeded cell is dead with
probability about 0.6 (alive on a region of measure about 0.4); in the
code `Math.random() > 0.4` makes the draw 1/2 alive, the alive region of
a uniform draw in [0,1) has measure 3/5 and the dead region measure 2/5,
not the other way around. -/
theorem C8_dead_probability_counterexample :
    seedCell ((1 : ℚ) / 2) = 1 ∧
    MeasureTheory.volume aliveRegion = ENNReal.ofReal (3 / 5) ∧
    MeasureTheory.volume deadRegion = ENNReal.ofReal (2 / 5) ∧
    ENNReal.ofReal ((3 : ℝ) / 5) ≠ ENNReal.ofReal ((2 : ℝ) / 5) := by
  refine ⟨by unfold seedCell; rw [if_pos (by norm_num)], volume_aliveRegion,
    volume_deadRegion, ?_⟩
  intro hcontra
  rw [ENNReal.ofReal_eq_ofReal_iff (by norm_num) (by norm_num)] at hcontra
  norm_num at hcontra

/-- C8 (amended): a seeded cell is set alive exactly when the uniform draw
`r` exceeds the threshold 0.4, i.e. on a region of measure 3/5, so each
seeded cell is alive with probability 0.6 and dead with probability 0.4. -/
theorem C8_alive_probability :
    (∀ r : ℚ, seedCell r = 1 ↔ seedThreshold < r) ∧
    MeasureTheory.volume aliveRegion = ENNReal.ofReal (3 / 5) ∧
    MeasureTheory.volume deadRegion = ENNReal.ofReal (2 / 5) :=
  ⟨seedCell_eq_one_iff, volume_aliveRegion, volume_deadRegion⟩

/-- C9: every entry of the initial cell-state array is 0 or 1: seeded
indices get exactly the 0-or-1 result of the threshold comparison and all
other indices keep the `Uint32Array` default 0. -/
theorem C9_initial_values_zero_or_one (rand : Nat → ℚ) (i : Nat) :
    cellStateArrayInit rand i = 0 ∨ cellStateArrayInit rand i = 1 := by
  have h := seedLoop_apply_le_one rand (GRID_SIZE * GRID_SIZE) 0 0 (fun _ => 0)
    (fun _ => Nat.zero_le 1) i
  unfold cellStateArrayInit
  omega

/-- C10: `resize` assigns only the six CSS style properties (width,
height and the four margins, with left = right and top = bottom) and
leaves the canvas drawing-buffer width/height and all simulation state
unchanged. -/
theorem C10_resize_touches_only_css (docClientWidth docClientHeight innerWidth innerHeight : ℚ)
    (w : World) :
    (resize docClientWidth docClientHeight innerWidth innerHeight w).canvasWidth =
      w.canvasWidth ∧
    (resize docClientWidth docClientHeight innerWidth innerHeight w).canvasHeight =
      w.canvasHeight ∧
    (resize docClientWidth docClientHeight innerWidth innerHeight w).step = w.step ∧
    (resize docClientWidth docClientHeight innerWidth innerHeight w).cellStateContents0 =
      w.cellStateContents0 ∧
    (resize docClientWidth docClientHeight innerWidth innerHeight w).cellStateContents1 =
      w.cellStateContents1 ∧
    (resize docClientWidth docClientHeight innerWidth innerHeight w).styleMarginLeft =
      (resize docClientWidth docClientHeight innerWidth innerHeight w).styleMarginRight ∧
    (resize docClientWidth docClientHeight innerWidth innerHeight w).styleMarginTop =
      (resize docClientWidth docClientHeight innerWidth innerHeight w).styleMarginBottom :=
  ⟨rfl, rfl, rfl, rfl, rfl, rfl, rfl⟩

end WebGpuLife
